import Mathlib

/-!
# The AnimeLab settings page

A shallow embedding of `src/config/animelab_config.cpp` (class `AnimeLab_Config`).

The page is a Qt widget: three combo boxes, six check boxes, a plain-text edit, a
preview browser and the flag `m_changed`.  Its slots read and write the shared
`KConfig` store, the `Preferences` singleton, the `Application` singleton, message
boxes and JSON files.  The widget state is the record `Panel`; everything outside the
widget that a slot can change is the record `Host`.  What the outside world answers
to a slot (the name picked in a file dialog, whether the file opened, the document
`QJsonDocument::fromJson` parsed from its bytes) is an explicit argument.

Toolkit behaviour used by the embedding, all of it as documented by Qt and KConfig:

* a non-editable `QComboBox` changes its index in `setCurrentText` only when
  `findText` finds the text, and emits `currentTextChanged` only when the index moves;
* `QCheckBox::setChecked` emits `toggled` only when the state flips;
* `QPlainTextEdit::setPlainText` always emits `textChanged`;
* slots connected to one signal run in connection order;
* `KConfigGroup::writeEntry` keeps the value as text (`true`/`false` for a `bool`),
  `readEntry` returns the default for an absent key, and a `bool` is read as `false`
  exactly for the texts `false`, `no`, `off`, `0` (any letter case);
* `sync` flushes to disk and leaves the values in memory alone;
* `Preferences::setIconTheme` and `Preferences::setQuickButtonList` set members of the
  `Preferences` singleton and write nothing to the store;
* `QString::arg` with several arguments substitutes in one pass;
* `i18n` is taken in the untranslated locale.
-/

namespace AnimeLab_Config

/-! ## Qt and KDE primitives -/

/-- Text of the item at `index` (`QComboBox::itemText`); empty when out of range. -/
def itemText (items : List String) (index : Nat) : String :=
  items.getD index ""

/-- Index of the first item equal to `text` (`QComboBox::findText`, exact match). -/
def findText : List String → String → Option Nat
  | [], _ => none
  | x :: xs, text => if x = text then some 0 else (findText xs text).map (· + 1)

/-- The in-memory entry map of the shared `KConfig`: group, key, stored text. -/
def KConfig : Type := String → String → Option String

/-- Store a text value (`KConfigGroup::writeEntry` with a `QString`). -/
def KConfig.writeEntry (c : KConfig) (group key value : String) : KConfig :=
  fun g k => if g = group ∧ k = key then some value else c g k

/-- Store a flag (`KConfigGroup::writeEntry` with a `bool`). -/
def KConfig.writeEntryBool (c : KConfig) (group key : String) (value : Bool) : KConfig :=
  c.writeEntry group key (if value then "true" else "false")

/-- Read a text value (`KConfigGroup::readEntry` with a `QString` default). -/
def KConfig.readEntry (c : KConfig) (group key aDefault : String) : String :=
  match c group key with
  | none => aDefault
  | some v => v

/-- Lower-case the letters `A` to `Z` and keep everything else (`QByteArray::toLower`). -/
def asciiLower (s : String) : String :=
  String.mk (s.data.map Char.toLower)

/-- Read a flag (`KConfigGroup::readEntry` with a `bool` default). -/
def KConfig.readEntryBool (c : KConfig) (group key : String) (aDefault : Bool) : Bool :=
  match c group key with
  | none => aDefault
  | some v =>
    let lower := asciiLower v
    !(lower == "false" || lower == "no" || lower == "off" || lower == "0")

/-- A JSON value (`QJsonValue`); the payload of a number is never inspected here. -/
inductive QJsonValue where
  | null
  | bool (b : Bool)
  | double (d : Int)
  | string (s : String)
  | array (items : List QJsonValue)
  | object (members : List (String × QJsonValue))
  | undefined

/-- The text of a string value, `defaultValue` for every other type
(`QJsonValue::toString`; the overload without argument passes the empty text). -/
def QJsonValue.toString (v : QJsonValue) (defaultValue : String) : String :=
  match v with
  | .string s => s
  | _ => defaultValue

/-- The flag of a boolean value, `defaultValue` for every other type (`QJsonValue::toBool`). -/
def QJsonValue.toBool (v : QJsonValue) (defaultValue : Bool) : Bool :=
  match v with
  | .bool b => b
  | _ => defaultValue

/-- A JSON object (`QJsonObject`) as an association list with at most one entry per key. -/
def QJsonObject : Type := List (String × QJsonValue)

/-- The value stored under `key`, `undefined` when absent (`QJsonObject::value`). -/
def QJsonObject.value : QJsonObject → String → QJsonValue
  | [], _ => .undefined
  | (k, v) :: rest, key => if k = key then v else QJsonObject.value rest key

/-- Drop the entry of `key`, if any. -/
def QJsonObject.remove (o : QJsonObject) (key : String) : QJsonObject :=
  List.filter (fun kv => decide (kv.1 ≠ key)) o

/-- Insert or replace the entry of `key` (`QJsonObject::insert`); inserting `undefined`
removes the key. -/
def QJsonObject.insert (o : QJsonObject) (key : String) (v : QJsonValue) : QJsonObject :=
  match v with
  | .undefined => o.remove key
  | _ => (key, v) :: o.remove key

/-- Result of `QJsonDocument::fromJson`: the null document on a parse error, otherwise
the top-level array or object. -/
inductive QJsonDocument where
  | null
  | array (items : List QJsonValue)
  | object (o : QJsonObject)

/-- Whether the document holds an object (`QJsonDocument::isObject`). -/
def QJsonDocument.isObject : QJsonDocument → Bool
  | .object _ => true
  | _ => false

/-- The object of the document, empty for any other document (`QJsonDocument::object`). -/
def QJsonDocument.toObject : QJsonDocument → QJsonObject
  | .object o => o
  | _ => []

/-- Message catalogue lookup in the untranslated locale. -/
def i18n (s : String) : String := s

/-! ## The widget -/

/-- Items added to `m_profileCombo` in `buildUi`. -/
def profileItems : List String := ["Sakura", "Neon Night", "Ghibli Soft"]

/-- Items added to `m_animationCombo` in `buildUi`. -/
def animationItems : List String := ["None", "Subtle Gradient", "Parallax"]

/-- Items added to `m_soundPackCombo` in `buildUi`. -/
def soundPackItems : List String := ["Kawaii Ping", "Neon Arcade", "Soft Wind"]

/-- State of the page: the current index of each combo box, the six check boxes, the
text of the mapping editor, the HTML shown in the preview, `m_changed`, and how often
the signal `modified()` was emitted. -/
structure Panel where
  profileIndex : Nat
  animationIndex : Nat
  soundPackIndex : Nat
  perNetworkThemes : Bool
  bubbleMode : Bool
  assistantSidebar : Bool
  stickerShortcuts : Bool
  livePreview : Bool
  streamerMode : Bool
  networkThemeMap : String
  preview : String
  m_changed : Bool
  modifiedEmitted : Nat
  deriving DecidableEq

/-- Value of `m_profileCombo->currentText()`. -/
def Panel.profile (p : Panel) : String := itemText profileItems p.profileIndex

/-- Value of `m_animationCombo->currentText()`. -/
def Panel.animation (p : Panel) : String := itemText animationItems p.animationIndex

/-- Value of `m_soundPackCombo->currentText()`. -/
def Panel.soundPack (p : Panel) : String := itemText soundPackItems p.soundPackIndex

/-- Every combo box shows one of its three items. -/
def Panel.WellFormed (p : Panel) : Prop :=
  p.profileIndex < 3 ∧ p.animationIndex < 3 ∧ p.soundPackIndex < 3

instance (p : Panel) : Decidable p.WellFormed := by
  unfold Panel.WellFormed; infer_instance

/-- The ten configuration values the page edits. -/
structure Fields where
  profile : String
  animation : String
  soundPack : String
  perNetworkThemes : Bool
  bubbleMode : Bool
  assistantSidebar : Bool
  stickerShortcuts : Bool
  livePreview : Bool
  streamerMode : Bool
  networkThemeMap : String
  deriving DecidableEq

/-- The ten configuration values currently shown by the widgets. -/
def Panel.fields (p : Panel) : Fields :=
  { profile := p.profile
    animation := p.animation
    soundPack := p.soundPack
    perNetworkThemes := p.perNetworkThemes
    bubbleMode := p.bubbleMode
    assistantSidebar := p.assistantSidebar
    stickerShortcuts := p.stickerShortcuts
    livePreview := p.livePreview
    streamerMode := p.streamerMode
    networkThemeMap := p.networkThemeMap }

/-- Widgets as `buildUi` leaves them: first item current in each combo box, nothing
checked, empty editor and preview; `m_changed` is initialised to `false`. -/
def buildUi : Panel :=
  { profileIndex := 0
    animationIndex := 0
    soundPackIndex := 0
    perNetworkThemes := false
    bubbleMode := false
    assistantSidebar := false
    stickerShortcuts := false
    livePreview := false
    streamerMode := false
    networkThemeMap := ""
    preview := ""
    m_changed := false
    modifiedEmitted := 0 }

/-- Slot `hasChanged`. -/
def hasChanged (p : Panel) : Bool := p.m_changed

/-- Slot `markModified`: set `m_changed` and emit `modified()`. -/
def markModified (p : Panel) : Panel :=
  { p with m_changed := true, modifiedEmitted := p.modifiedEmitted + 1 }

/-- The three colours `updatePreview` picks for a profile text: background, text, accent. -/
def previewPalette (profile : String) : String × String × String :=
  if profile = "Neon Night" then ("#1b132b", "#f3edff", "#ff4fa6")
  else if profile = "Ghibli Soft" then ("#f7f6ec", "#2f3a31", "#7a8f63")
  else ("#fff8fd", "#2f244d", "#ff5d8f")

/-- The preview template with its eight arguments substituted (`%4` and `%5` are the
fixed time stamps). -/
def previewHtml (bg fg accent animation bubble soundPack : String) : String :=
  "<div style=\x27background:" ++ bg ++ ";color:" ++ fg ++ ";padding:10px;border-radius:8px;\x27>"
    ++ "<p><b style=\x27color:" ++ accent ++ "\x27>[" ++ "19:30" ++ "]</b> Konvi-chan: Theme looks great.</p>"
    ++ "<p><b style=\x27color:" ++ accent ++ "\x27>[" ++ "19:31" ++ "]</b> You: /join #anime</p>"
    ++ "<p><i>Animation: " ++ animation ++ " | Bubble: " ++ bubble ++ " | Sound: " ++ soundPack ++ "</i></p>"
    ++ "</div>"

/-- Slot `updatePreview`. -/
def updatePreview (p : Panel) : Panel :=
  if !p.livePreview then
    { p with preview := i18n "<b>Live preview disabled.</b>" }
  else
    let c := previewPalette p.profile
    { p with preview := previewHtml c.1 c.2.1 c.2.2 p.animation
                          (if p.bubbleMode then "On" else "Off") p.soundPack }

/-- Move `m_profileCombo` to `index`; on a change `currentTextChanged` runs
`markModified`, then `updatePreview`. -/
def setProfileIndex (index : Nat) (p : Panel) : Panel :=
  if index = p.profileIndex then p
  else updatePreview (markModified { p with profileIndex := index })

/-- Call `m_profileCombo->setCurrentText(text)`. -/
def setProfileText (text : String) (p : Panel) : Panel :=
  match findText profileItems text with
  | none => p
  | some i => setProfileIndex i p

/-- Move `m_animationCombo` to `index`; on a change `currentTextChanged` runs `markModified`. -/
def setAnimationIndex (index : Nat) (p : Panel) : Panel :=
  if index = p.animationIndex then p
  else markModified { p with animationIndex := index }

/-- Call `m_animationCombo->setCurrentText(text)`. -/
def setAnimationText (text : String) (p : Panel) : Panel :=
  match findText animationItems text with
  | none => p
  | some i => setAnimationIndex i p

/-- Move `m_soundPackCombo` to `index`; on a change `currentTextChanged` runs `markModified`. -/
def setSoundPackIndex (index : Nat) (p : Panel) : Panel :=
  if index = p.soundPackIndex then p
  else markModified { p with soundPackIndex := index }

/-- Call `m_soundPackCombo->setCurrentText(text)`. -/
def setSoundPackText (text : String) (p : Panel) : Panel :=
  match findText soundPackItems text with
  | none => p
  | some i => setSoundPackIndex i p

/-- Call `m_perNetworkThemes->setChecked(checked)`; `toggled` runs `markModified`. -/
def setPerNetworkThemes (checked : Bool) (p : Panel) : Panel :=
  if checked = p.perNetworkThemes then p
  else markModified { p with perNetworkThemes := checked }

/-- Call `m_bubbleMode->setChecked(checked)`; `toggled` runs `markModified`. -/
def setBubbleMode (checked : Bool) (p : Panel) : Panel :=
  if checked = p.bubbleMode then p
  else markModified { p with bubbleMode := checked }

/-- Call `m_assistantSidebar->setChecked(checked)`; `toggled` runs `markModified`. -/
def setAssistantSidebar (checked : Bool) (p : Panel) : Panel :=
  if checked = p.assistantSidebar then p
  else markModified { p with assistantSidebar := checked }

/-- Call `m_stickerShortcuts->setChecked(checked)`; `toggled` runs `markModified`. -/
def setStickerShortcuts (checked : Bool) (p : Panel) : Panel :=
  if checked = p.stickerShortcuts then p
  else markModified { p with stickerShortcuts := checked }

/-- Call `m_livePreview->setChecked(checked)`; `toggled` runs `markModified`, then
`updatePreview`. -/
def setLivePreview (checked : Bool) (p : Panel) : Panel :=
  if checked = p.livePreview then p
  else updatePreview (markModified { p with livePreview := checked })

/-- Call `m_streamerMode->setChecked(checked)`; `toggled` runs `markModified`. -/
def setStreamerMode (checked : Bool) (p : Panel) : Panel :=
  if checked = p.streamerMode then p
  else markModified { p with streamerMode := checked }

/-- Call `m_networkThemeMap->setPlainText(text)`; `textChanged` runs `markModified`. -/
def setNetworkThemeMap (text : String) (p : Panel) : Panel :=
  markModified { p with networkThemeMap := text }

/-- What the user can do to the widgets: pick an item of a combo box, set a check box,
or replace the text of the mapping editor. -/
inductive Edit where
  | profile (index : Nat)
  | animation (index : Nat)
  | soundPack (index : Nat)
  | perNetworkThemes (checked : Bool)
  | bubbleMode (checked : Bool)
  | assistantSidebar (checked : Bool)
  | stickerShortcuts (checked : Bool)
  | livePreview (checked : Bool)
  | streamerMode (checked : Bool)
  | networkThemeMap (text : String)

/-- The page after a user edit; the widget emits the same signals as when set from code. -/
def userEdit (e : Edit) (p : Panel) : Panel :=
  match e with
  | .profile i => setProfileIndex i p
  | .animation i => setAnimationIndex i p
  | .soundPack i => setSoundPackIndex i p
  | .perNetworkThemes b => setPerNetworkThemes b p
  | .bubbleMode b => setBubbleMode b p
  | .assistantSidebar b => setAssistantSidebar b p
  | .stickerShortcuts b => setStickerShortcuts b p
  | .livePreview b => setLivePreview b p
  | .streamerMode b => setStreamerMode b p
  | .networkThemeMap t => setNetworkThemeMap t p

/-- Slot `restorePageToDefaults`. -/
def restorePageToDefaults (p : Panel) : Panel :=
  let p := setProfileText "Sakura" p
  let p := setAnimationText "Subtle Gradient" p
  let p := setSoundPackText "Kawaii Ping" p
  let p := setPerNetworkThemes true p
  let p := setBubbleMode true p
  let p := setAssistantSidebar true p
  let p := setStickerShortcuts true p
  let p := setLivePreview true p
  let p := setStreamerMode false p
  let p := setNetworkThemeMap "libera=Sakura" p
  let p := updatePreview p
  markModified p

/-! ## The host application -/

/-- Everything outside the widget that a slot of the page can change: the shared
configuration store, the `Preferences` members `iconTheme` and `quickButtonList`, the
number of `initializeNickIcons` calls, the number of `appearanceChanged` emissions, the
texts of the error boxes shown so far, and the documents written to files so far. -/
structure Host where
  config : KConfig
  iconTheme : String
  quickButtonList : List String
  nickIconInits : Nat
  appearanceChanged : Nat
  errorBoxes : List String
  written : List (String × QJsonObject)

/-- Method `saveSettings`, first part: the ten `writeEntry` calls on group `AnimeLab`. -/
def writeGroup (p : Panel) (c : KConfig) : KConfig :=
  let c := c.writeEntry "AnimeLab" "Profile" p.profile
  let c := c.writeEntry "AnimeLab" "Animation" p.animation
  let c := c.writeEntry "AnimeLab" "SoundPack" p.soundPack
  let c := c.writeEntryBool "AnimeLab" "PerNetworkThemes" p.perNetworkThemes
  let c := c.writeEntryBool "AnimeLab" "BubbleMode" p.bubbleMode
  let c := c.writeEntryBool "AnimeLab" "AssistantSidebar" p.assistantSidebar
  let c := c.writeEntryBool "AnimeLab" "StickerShortcuts" p.stickerShortcuts
  let c := c.writeEntryBool "AnimeLab" "LivePreview" p.livePreview
  let c := c.writeEntryBool "AnimeLab" "StreamerMode" p.streamerMode
  c.writeEntry "AnimeLab" "NetworkThemeMap" p.networkThemeMap

/-- The four entries `installStickerShortcuts` adds to the quick-button list. -/
def stickerButtons : List String :=
  [ "Sakura,/say (✿◠‿◠)"
  , "Cat,/say (=^･ω･^=)"
  , "Sparkle,/say ✨"
  , "Blush,/say (⁄ ⁄•⁄ω⁄•⁄ ⁄)" ]

/-- The loop of `installStickerShortcuts` over the buttons `bs`, starting from `list`. -/
def appendMissing (bs : List String) (list : List String) : List String :=
  bs.foldl (fun l b => if !l.contains b then l ++ [b] else l) list

/-- Method `installStickerShortcuts`. -/
def installStickerShortcuts (h : Host) : Host :=
  { h with quickButtonList := appendMissing stickerButtons h.quickButtonList }

/-- Method `applyStreamerModeGuards`. -/
def applyStreamerModeGuards (checked : Bool) (h : Host) : Host :=
  if !checked then h
  else
    let c := h.config.writeEntryBool "General Options" "ShowRealNames" false
    let c := c.writeEntryBool "Flags" "Log" false
    let c := c.writeEntryBool "Flags" "AddHostnameToLog" false
    let c := c.writeEntryBool "Appearance" "Timestamping" true
    { h with config := c }

/-- Method `saveSettings`. -/
def saveSettings (p : Panel) (h : Host) : Panel × Host :=
  let h := { h with config := writeGroup p h.config }
  let h := if p.stickerShortcuts then installStickerShortcuts h else h
  let h := applyStreamerModeGuards p.streamerMode h
  ({ p with m_changed := false }, h)

/-- Method `loadSettings`. -/
def loadSettings (c : KConfig) (p : Panel) : Panel :=
  let p := setProfileText (c.readEntry "AnimeLab" "Profile" "Sakura") p
  let p := setAnimationText (c.readEntry "AnimeLab" "Animation" "Subtle Gradient") p
  let p := setSoundPackText (c.readEntry "AnimeLab" "SoundPack" "Kawaii Ping") p
  let p := setPerNetworkThemes (c.readEntryBool "AnimeLab" "PerNetworkThemes" true) p
  let p := setBubbleMode (c.readEntryBool "AnimeLab" "BubbleMode" true) p
  let p := setAssistantSidebar (c.readEntryBool "AnimeLab" "AssistantSidebar" true) p
  let p := setStickerShortcuts (c.readEntryBool "AnimeLab" "StickerShortcuts" true) p
  let p := setLivePreview (c.readEntryBool "AnimeLab" "LivePreview" true) p
  let p := setStreamerMode (c.readEntryBool "AnimeLab" "StreamerMode" false) p
  let p := setNetworkThemeMap (c.readEntry "AnimeLab" "NetworkThemeMap" "libera=Sakura") p
  let p := updatePreview p
  { p with m_changed := false }

/-- The constructor: `m_changed(false)`, `buildUi()`, `loadSettings()`. -/
def construct (c : KConfig) : Panel :=
  loadSettings c buildUi

/-- The ten colour variables of `applyAnimeProfile`. -/
structure Palette where
  bg : String
  altBg : String
  channel : String
  action : String
  server : String
  command : String
  query : String
  time : String
  backlink : String
  hyperlink : String
  deriving DecidableEq

/-- The values of the colour variables of `applyAnimeProfile` after its `if` chain. -/
def profilePalette (profileName : String) : Palette :=
  if profileName = "Neon Night" then
    { bg := "#1b132b", altBg := "#24183a", channel := "#efe8ff", action := "#ff4fa6"
      server := "#ff77c8", command := "#9f7cff", query := "#f3edff", time := "#baa4e3"
      backlink := "#7d6c99", hyperlink := "#73d8ff" }
  else if profileName = "Ghibli Soft" then
    { bg := "#f7f6ec", altBg := "#eef2df", channel := "#2f3a31", action := "#d06c8f"
      server := "#7a8f63", command := "#5a6e8e", query := "#2f3a31", time := "#8d8a73"
      backlink := "#a5ad93", hyperlink := "#4f74a6" }
  else
    { bg := "#fff8fd", altBg := "#f8ecff", channel := "#2f244d", action := "#ff5d8f"
      server := "#8b3d6a", command := "#4e3c7c", query := "#2f244d", time := "#9f8bb6"
      backlink := "#b8a6c6", hyperlink := "#6d45c8" }

/-- Method `applyAnimeProfile`. -/
def applyAnimeProfile (profileName : String) (h : Host) : Host :=
  let v := profilePalette profileName
  let c := h.config.writeEntryBool "Appearance" "InputFieldsBackgroundColor" true
  let c := c.writeEntryBool "Appearance" "UseColoredNicks" true
  let c := c.writeEntryBool "Appearance" "AllowColorCodes" true
  let c := c.writeEntry "Message Text Colors" "TextViewBackground" v.bg
  let c := c.writeEntry "Message Text Colors" "AlternateBackground" v.altBg
  let c := c.writeEntry "Message Text Colors" "ChannelMessage" v.channel
  let c := c.writeEntry "Message Text Colors" "ActionMessage" v.action
  let c := c.writeEntry "Message Text Colors" "ServerMessage" v.server
  let c := c.writeEntry "Message Text Colors" "CommandMessage" v.command
  let c := c.writeEntry "Message Text Colors" "QueryMessage" v.query
  let c := c.writeEntry "Message Text Colors" "Time" v.time
  let c := c.writeEntry "Message Text Colors" "BacklogMessage" v.backlink
  let c := c.writeEntry "Message Text Colors" "Hyperlink" v.hyperlink
  let c := c.writeEntry "Message Text Colors" "Action" v.action
  let c := c.writeEntry "Themes" "IconTheme" "anime-sakura"
  { h with
    config := c
    iconTheme := "anime-sakura"
    nickIconInits := h.nickIconInits + 1
    appearanceChanged := h.appearanceChanged + 1 }

/-- Slot `applyProfileNow`. -/
def applyProfileNow (p : Panel) (h : Host) : Host :=
  applyAnimeProfile p.profile h

/-- The object `exportThemeJson` fills from the widgets. -/
def exportObject (p : Panel) : QJsonObject :=
  let obj : QJsonObject := []
  let obj := obj.insert "profile" (.string p.profile)
  let obj := obj.insert "animation" (.string p.animation)
  let obj := obj.insert "soundPack" (.string p.soundPack)
  let obj := obj.insert "perNetworkThemes" (.bool p.perNetworkThemes)
  let obj := obj.insert "bubbleMode" (.bool p.bubbleMode)
  let obj := obj.insert "assistantSidebar" (.bool p.assistantSidebar)
  let obj := obj.insert "stickerShortcuts" (.bool p.stickerShortcuts)
  let obj := obj.insert "livePreview" (.bool p.livePreview)
  let obj := obj.insert "streamerMode" (.bool p.streamerMode)
  obj.insert "networkThemeMap" (.string p.networkThemeMap)

/-- Slot `exportThemeJson`: `fileName` is the answer of the save dialog (empty when
cancelled) and `opened` tells whether `QFile::open` for writing succeeded.  The slot
only reads the widgets. -/
def exportThemeJson (fileName : String) (opened : Bool) (p : Panel) (h : Host) : Panel × Host :=
  if fileName.isEmpty then (p, h)
  else
    let obj := exportObject p
    if !opened then
      (p, { h with errorBoxes := h.errorBoxes ++ [i18n "Failed to write file: " ++ fileName] })
    else
      (p, { h with written := h.written ++ [(fileName, obj)] })

/-- The ten widget updates at the end of `importThemeJson`, with `updatePreview` and
`markModified`. -/
def applyObject (obj : QJsonObject) (p : Panel) : Panel :=
  let p := setProfileText ((obj.value "profile").toString "Sakura") p
  let p := setAnimationText ((obj.value "animation").toString "Subtle Gradient") p
  let p := setSoundPackText ((obj.value "soundPack").toString "Kawaii Ping") p
  let p := setPerNetworkThemes ((obj.value "perNetworkThemes").toBool true) p
  let p := setBubbleMode ((obj.value "bubbleMode").toBool true) p
  let p := setAssistantSidebar ((obj.value "assistantSidebar").toBool true) p
  let p := setStickerShortcuts ((obj.value "stickerShortcuts").toBool true) p
  let p := setLivePreview ((obj.value "livePreview").toBool true) p
  let p := setStreamerMode ((obj.value "streamerMode").toBool false) p
  let p := setNetworkThemeMap ((obj.value "networkThemeMap").toString "") p
  let p := updatePreview p
  markModified p

/-- Slot `importThemeJson`: `fileName` is the answer of the open dialog (empty when
cancelled), `opened` tells whether `QFile::open` for reading succeeded, and `doc` is
what `QJsonDocument::fromJson` makes of the bytes of the file. -/
def importThemeJson (fileName : String) (opened : Bool) (doc : QJsonDocument)
    (p : Panel) (h : Host) : Panel × Host :=
  if fileName.isEmpty then (p, h)
  else if !opened then
    (p, { h with errorBoxes := h.errorBoxes ++ [i18n "Failed to read file: " ++ fileName] })
  else if !doc.isObject then
    (p, { h with errorBoxes := h.errorBoxes ++ [i18n "Invalid JSON format."] })
  else
    (applyObject doc.toObject p, h)

/-! ## The three palettes as stored, key by key -/

/-- The eleven keys `applyAnimeProfile` writes in group `Message Text Colors`, in the
order of the `writeEntry` calls. -/
def colourKeys : List String :=
  [ "TextViewBackground", "AlternateBackground", "ChannelMessage", "ActionMessage"
  , "ServerMessage", "CommandMessage", "QueryMessage", "Time", "BacklogMessage"
  , "Hyperlink", "Action" ]

/-- The stored texts of the eleven colour keys. -/
def messageTextColours (c : KConfig) : List (Option String) :=
  colourKeys.map (c "Message Text Colors")

/-- The Sakura palette, key by key. -/
def sakuraColours : List (Option String) :=
  [ some "#fff8fd", some "#f8ecff", some "#2f244d", some "#ff5d8f", some "#8b3d6a"
  , some "#4e3c7c", some "#2f244d", some "#9f8bb6", some "#b8a6c6", some "#6d45c8"
  , some "#ff5d8f" ]

/-- The Neon Night palette, key by key. -/
def neonNightColours : List (Option String) :=
  [ some "#1b132b", some "#24183a", some "#efe8ff", some "#ff4fa6", some "#ff77c8"
  , some "#9f7cff", some "#f3edff", some "#baa4e3", some "#7d6c99", some "#73d8ff"
  , some "#ff4fa6" ]

/-- The Ghibli Soft palette, key by key. -/
def ghibliSoftColours : List (Option String) :=
  [ some "#f7f6ec", some "#eef2df", some "#2f3a31", some "#d06c8f", some "#7a8f63"
  , some "#5a6e8e", some "#2f3a31", some "#8d8a73", some "#a5ad93", some "#4f74a6"
  , some "#d06c8f" ]

/-! ## Sample states used to instantiate the theorems -/

/-- A store with no entry at all. -/
def emptyConfig : KConfig := fun _ _ => none

/-- A host with an empty store, no quick buttons and nothing shown or written yet. -/
def emptyHost : Host :=
  { config := emptyConfig
    iconTheme := ""
    quickButtonList := []
    nickIconInits := 0
    appearanceChanged := 0
    errorBoxes := []
    written := [] }

/-- A host whose quick-button list already holds the Cat sticker and one other button. -/
def sampleHost : Host :=
  { emptyHost with quickButtonList := ["Cat,/say (=^･ω･^=)", "Op,/op %u"] }

/-- A page showing Neon Night, Parallax, Soft Wind, with streamer mode on. -/
def samplePanel : Panel :=
  { profileIndex := 1
    animationIndex := 2
    soundPackIndex := 2
    perNetworkThemes := false
    bubbleMode := true
    assistantSidebar := false
    stickerShortcuts := true
    livePreview := true
    streamerMode := true
    networkThemeMap := "work=Neon Night"
    preview := ""
    m_changed := true
    modifiedEmitted := 4 }

/-! ## Basic facts about the primitives -/

theorem isEmpty_eq_false_of_ne {s : String} (h : s ≠ "") : s.isEmpty = false := by
  cases hb : s.isEmpty
  · rfl
  · exact absurd ((String.isEmpty_iff s).1 hb) h

theorem findText_eq_none {items : List String} {text : String} :
    findText items text = none ↔ text ∉ items := by
  induction items with
  | nil => simp [findText]
  | cons x xs ih =>
    by_cases hx : x = text
    · simp [findText, hx]
    · have hx2 : ¬ text = x := fun e => hx e.symm
      simp [findText, hx, hx2, ih]

theorem findText_eq_some {items : List String} {text : String} {i : Nat}
    (h : findText items text = some i) : itemText items i = text ∧ text ∈ items := by
  induction items generalizing i with
  | nil => simp [findText] at h
  | cons x xs ih =>
    by_cases hx : x = text
    · simp [findText, hx] at h
      subst h
      simp [itemText, hx]
    · cases hf : findText xs text with
      | none => simp [findText, hx, hf] at h
      | some j =>
        simp [findText, hx, hf] at h
        subst h
        have := ih hf
        refine ⟨?_, List.mem_cons_of_mem _ this.2⟩
        simpa [itemText] using this.1

theorem findText_profileItems {i : Nat} (h : i < 3) :
    findText profileItems (itemText profileItems i) = some i := by
  interval_cases i <;> decide

theorem findText_animationItems {i : Nat} (h : i < 3) :
    findText animationItems (itemText animationItems i) = some i := by
  interval_cases i <;> decide

theorem findText_soundPackItems {i : Nat} (h : i < 3) :
    findText soundPackItems (itemText soundPackItems i) = some i := by
  interval_cases i <;> decide

theorem readEntry_writeEntry (c : KConfig) (g k v d : String) :
    (c.writeEntry g k v).readEntry g k d = v := by
  simp [KConfig.readEntry, KConfig.writeEntry]

theorem readEntryBool_writeEntryBool (c : KConfig) (g k : String) (b d : Bool) :
    (c.writeEntryBool g k b).readEntryBool g k d = b := by
  cases b <;> simp [KConfig.readEntryBool, KConfig.writeEntryBool, KConfig.writeEntry] <;> decide

/-! ## What each widget update does to the ten values -/

@[simp] theorem fields_markModified (p : Panel) : (markModified p).fields = p.fields := rfl

@[simp] theorem fields_updatePreview (p : Panel) : (updatePreview p).fields = p.fields := by
  unfold updatePreview
  split <;> simp only [Panel.fields, Panel.profile, Panel.animation, Panel.soundPack]

@[simp] theorem m_changed_updatePreview (p : Panel) :
    (updatePreview p).m_changed = p.m_changed := by
  unfold updatePreview
  split <;> simp only

@[simp] theorem m_changed_markModified (p : Panel) : (markModified p).m_changed = true := rfl

theorem fields_setProfileText (text : String) (p : Panel) :
    (setProfileText text p).fields =
      { p.fields with profile := if text ∈ profileItems then text else p.fields.profile } := by
  unfold setProfileText
  cases hf : findText profileItems text with
  | none =>
    have hn : text ∉ profileItems := findText_eq_none.1 hf
    simp [hn]
  | some i =>
    obtain ⟨h1, h2⟩ := findText_eq_some hf
    simp only [h2, if_true]
    unfold setProfileIndex
    split
    · next he => simp [Panel.fields, Panel.profile, ← he, h1]
    · rw [fields_updatePreview, fields_markModified]
      simp [Panel.fields, Panel.profile, Panel.animation, Panel.soundPack, h1]

theorem fields_setAnimationText (text : String) (p : Panel) :
    (setAnimationText text p).fields =
      { p.fields with animation := if text ∈ animationItems then text else p.fields.animation } := by
  unfold setAnimationText
  cases hf : findText animationItems text with
  | none =>
    have hn : text ∉ animationItems := findText_eq_none.1 hf
    simp [hn]
  | some i =>
    obtain ⟨h1, h2⟩ := findText_eq_some hf
    simp only [h2, if_true]
    unfold setAnimationIndex
    split
    · next he => simp [Panel.fields, Panel.animation, ← he, h1]
    · rw [fields_markModified]
      simp [Panel.fields, Panel.profile, Panel.animation, Panel.soundPack, h1]

theorem fields_setSoundPackText (text : String) (p : Panel) :
    (setSoundPackText text p).fields =
      { p.fields with soundPack := if text ∈ soundPackItems then text else p.fields.soundPack } := by
  unfold setSoundPackText
  cases hf : findText soundPackItems text with
  | none =>
    have hn : text ∉ soundPackItems := findText_eq_none.1 hf
    simp [hn]
  | some i =>
    obtain ⟨h1, h2⟩ := findText_eq_some hf
    simp only [h2, if_true]
    unfold setSoundPackIndex
    split
    · next he => simp [Panel.fields, Panel.soundPack, ← he, h1]
    · rw [fields_markModified]
      simp [Panel.fields, Panel.profile, Panel.animation, Panel.soundPack, h1]

theorem fields_setPerNetworkThemes (b : Bool) (p : Panel) :
    (setPerNetworkThemes b p).fields = { p.fields with perNetworkThemes := b } := by
  unfold setPerNetworkThemes
  split
  · next he => simp [Panel.fields, ← he]
  · rfl

theorem fields_setBubbleMode (b : Bool) (p : Panel) :
    (setBubbleMode b p).fields = { p.fields with bubbleMode := b } := by
  unfold setBubbleMode
  split
  · next he => simp [Panel.fields, ← he]
  · rfl

theorem fields_setAssistantSidebar (b : Bool) (p : Panel) :
    (setAssistantSidebar b p).fields = { p.fields with assistantSidebar := b } := by
  unfold setAssistantSidebar
  split
  · next he => simp [Panel.fields, ← he]
  · rfl

theorem fields_setStickerShortcuts (b : Bool) (p : Panel) :
    (setStickerShortcuts b p).fields = { p.fields with stickerShortcuts := b } := by
  unfold setStickerShortcuts
  split
  · next he => simp [Panel.fields, ← he]
  · rfl

theorem fields_setLivePreview (b : Bool) (p : Panel) :
    (setLivePreview b p).fields = { p.fields with livePreview := b } := by
  unfold setLivePreview
  split
  · next he => simp [Panel.fields, ← he]
  · rw [fields_updatePreview, fields_markModified]
    rfl

theorem fields_setStreamerMode (b : Bool) (p : Panel) :
    (setStreamerMode b p).fields = { p.fields with streamerMode := b } := by
  unfold setStreamerMode
  split
  · next he => simp [Panel.fields, ← he]
  · rfl

theorem fields_setNetworkThemeMap (text : String) (p : Panel) :
    (setNetworkThemeMap text p).fields = { p.fields with networkThemeMap := text } := rfl

/-- The ten values after `applyObject`, read off the object. -/
theorem fields_applyObject (obj : QJsonObject) (p : Panel) :
    (applyObject obj p).fields =
      { profile :=
          if (obj.value "profile").toString "Sakura" ∈ profileItems
          then (obj.value "profile").toString "Sakura" else p.profile
        animation :=
          if (obj.value "animation").toString "Subtle Gradient" ∈ animationItems
          then (obj.value "animation").toString "Subtle Gradient" else p.animation
        soundPack :=
          if (obj.value "soundPack").toString "Kawaii Ping" ∈ soundPackItems
          then (obj.value "soundPack").toString "Kawaii Ping" else p.soundPack
        perNetworkThemes := (obj.value "perNetworkThemes").toBool true
        bubbleMode := (obj.value "bubbleMode").toBool true
        assistantSidebar := (obj.value "assistantSidebar").toBool true
        stickerShortcuts := (obj.value "stickerShortcuts").toBool true
        livePreview := (obj.value "livePreview").toBool true
        streamerMode := (obj.value "streamerMode").toBool false
        networkThemeMap := (obj.value "networkThemeMap").toString "" } := by
  simp only [applyObject, fields_markModified, fields_updatePreview, fields_setNetworkThemeMap,
    fields_setStreamerMode, fields_setLivePreview, fields_setStickerShortcuts,
    fields_setAssistantSidebar, fields_setBubbleMode, fields_setPerNetworkThemes,
    fields_setSoundPackText, fields_setAnimationText, fields_setProfileText]
  rfl

/-- The ten values after `loadSettings`, read off the store. -/
theorem fields_loadSettings (c : KConfig) (p : Panel) :
    (loadSettings c p).fields =
      { profile :=
          if c.readEntry "AnimeLab" "Profile" "Sakura" ∈ profileItems
          then c.readEntry "AnimeLab" "Profile" "Sakura" else p.profile
        animation :=
          if c.readEntry "AnimeLab" "Animation" "Subtle Gradient" ∈ animationItems
          then c.readEntry "AnimeLab" "Animation" "Subtle Gradient" else p.animation
        soundPack :=
          if c.readEntry "AnimeLab" "SoundPack" "Kawaii Ping" ∈ soundPackItems
          then c.readEntry "AnimeLab" "SoundPack" "Kawaii Ping" else p.soundPack
        perNetworkThemes := c.readEntryBool "AnimeLab" "PerNetworkThemes" true
        bubbleMode := c.readEntryBool "AnimeLab" "BubbleMode" true
        assistantSidebar := c.readEntryBool "AnimeLab" "AssistantSidebar" true
        stickerShortcuts := c.readEntryBool "AnimeLab" "StickerShortcuts" true
        livePreview := c.readEntryBool "AnimeLab" "LivePreview" true
        streamerMode := c.readEntryBool "AnimeLab" "StreamerMode" false
        networkThemeMap := c.readEntry "AnimeLab" "NetworkThemeMap" "libera=Sakura" } := by
  have h : ∀ q : Panel, ({ q with m_changed := false } : Panel).fields = q.fields := fun _ => rfl
  simp only [loadSettings, h, fields_updatePreview, fields_setNetworkThemeMap,
    fields_setStreamerMode, fields_setLivePreview, fields_setStickerShortcuts,
    fields_setAssistantSidebar, fields_setBubbleMode, fields_setPerNetworkThemes,
    fields_setSoundPackText, fields_setAnimationText, fields_setProfileText]
  rfl

/-- The ten values after `restorePageToDefaults`. -/
theorem fields_restorePageToDefaults (p : Panel) :
    (restorePageToDefaults p).fields =
      { profile := "Sakura"
        animation := "Subtle Gradient"
        soundPack := "Kawaii Ping"
        perNetworkThemes := true
        bubbleMode := true
        assistantSidebar := true
        stickerShortcuts := true
        livePreview := true
        streamerMode := false
        networkThemeMap := "libera=Sakura" } := by
  have h1 : "Sakura" ∈ profileItems := by decide
  have h2 : "Subtle Gradient" ∈ animationItems := by decide
  have h3 : "Kawaii Ping" ∈ soundPackItems := by decide
  simp only [restorePageToDefaults, fields_markModified, fields_updatePreview,
    fields_setNetworkThemeMap, fields_setStreamerMode, fields_setLivePreview,
    fields_setStickerShortcuts, fields_setAssistantSidebar, fields_setBubbleMode,
    fields_setPerNetworkThemes, fields_setSoundPackText, fields_setAnimationText,
    fields_setProfileText, h1, h2, h3, if_true]

/-! ## The combo boxes always show one of their items -/

theorem findText_lt {items : List String} {text : String} {i : Nat}
    (h : findText items text = some i) : i < items.length := by
  induction items generalizing i with
  | nil => simp [findText] at h
  | cons x xs ih =>
    by_cases hx : x = text
    · simp [findText, hx] at h
      subst h
      simp
    · cases hf : findText xs text with
      | none => simp [findText, hx, hf] at h
      | some j =>
        simp [findText, hx, hf] at h
        subst h
        have := ih hf
        simpa using this

theorem wellFormed_updatePreview {p : Panel} (h : p.WellFormed) :
    (updatePreview p).WellFormed := by
  unfold Panel.WellFormed at h ⊢
  unfold updatePreview
  split <;> simpa only using h

theorem wellFormed_markModified {p : Panel} (h : p.WellFormed) :
    (markModified p).WellFormed := h

theorem wellFormed_setProfileText (text : String) {p : Panel} (h : p.WellFormed) :
    (setProfileText text p).WellFormed := by
  unfold setProfileText
  cases hf : findText profileItems text with
  | none => exact h
  | some i =>
    have hi : i < 3 := findText_lt hf
    show (setProfileIndex i p).WellFormed
    unfold setProfileIndex
    split
    · exact h
    · exact wellFormed_updatePreview (wellFormed_markModified ⟨hi, h.2.1, h.2.2⟩)

theorem wellFormed_setAnimationText (text : String) {p : Panel} (h : p.WellFormed) :
    (setAnimationText text p).WellFormed := by
  unfold setAnimationText
  cases hf : findText animationItems text with
  | none => exact h
  | some i =>
    have hi : i < 3 := findText_lt hf
    show (setAnimationIndex i p).WellFormed
    unfold setAnimationIndex
    split
    · exact h
    · exact wellFormed_markModified ⟨h.1, hi, h.2.2⟩

theorem wellFormed_setSoundPackText (text : String) {p : Panel} (h : p.WellFormed) :
    (setSoundPackText text p).WellFormed := by
  unfold setSoundPackText
  cases hf : findText soundPackItems text with
  | none => exact h
  | some i =>
    have hi : i < 3 := findText_lt hf
    show (setSoundPackIndex i p).WellFormed
    unfold setSoundPackIndex
    split
    · exact h
    · exact wellFormed_markModified ⟨h.1, h.2.1, hi⟩

theorem wellFormed_checkBoxes (t : String) (b1 b2 b3 b4 b5 b6 : Bool) {p : Panel}
    (h : p.WellFormed) :
    (setNetworkThemeMap t (setStreamerMode b6 (setLivePreview b5 (setStickerShortcuts b4
      (setAssistantSidebar b3 (setBubbleMode b2 (setPerNetworkThemes b1 p))))))).WellFormed := by
  have h1 : (setPerNetworkThemes b1 p).WellFormed := by
    unfold setPerNetworkThemes
    split <;> exact h
  have h2 : (setBubbleMode b2 (setPerNetworkThemes b1 p)).WellFormed := by
    unfold setBubbleMode
    split <;> exact h1
  have h3 : (setAssistantSidebar b3 (setBubbleMode b2 (setPerNetworkThemes b1 p))).WellFormed := by
    unfold setAssistantSidebar
    split <;> exact h2
  have h4 : (setStickerShortcuts b4
      (setAssistantSidebar b3 (setBubbleMode b2 (setPerNetworkThemes b1 p)))).WellFormed := by
    unfold setStickerShortcuts
    split <;> exact h3
  have h5 : (setLivePreview b5 (setStickerShortcuts b4
      (setAssistantSidebar b3 (setBubbleMode b2 (setPerNetworkThemes b1 p))))).WellFormed := by
    unfold setLivePreview
    split
    · exact h4
    · exact wellFormed_updatePreview (wellFormed_markModified h4)
  have h6 : (setStreamerMode b6 (setLivePreview b5 (setStickerShortcuts b4
      (setAssistantSidebar b3 (setBubbleMode b2 (setPerNetworkThemes b1 p)))))).WellFormed := by
    unfold setStreamerMode
    split <;> exact h5
  exact h6

/-- The page is well formed after construction, and `loadSettings`, `saveSettings`,
`restorePageToDefaults` and the import keep it so. -/
theorem wellFormed_invariant :
    (∀ c : KConfig, (construct c).WellFormed) ∧
    (∀ (c : KConfig) (p : Panel), p.WellFormed → (loadSettings c p).WellFormed) ∧
    (∀ (p : Panel) (h : Host), p.WellFormed → (saveSettings p h).1.WellFormed) ∧
    (∀ p : Panel, p.WellFormed → (restorePageToDefaults p).WellFormed) ∧
    (∀ (obj : QJsonObject) (p : Panel), p.WellFormed → (applyObject obj p).WellFormed) := by
  have hload : ∀ (c : KConfig) (p : Panel), p.WellFormed → (loadSettings c p).WellFormed := by
    intro c p h
    have := wellFormed_updatePreview (wellFormed_checkBoxes
      (c.readEntry "AnimeLab" "NetworkThemeMap" "libera=Sakura")
      (c.readEntryBool "AnimeLab" "PerNetworkThemes" true)
      (c.readEntryBool "AnimeLab" "BubbleMode" true)
      (c.readEntryBool "AnimeLab" "AssistantSidebar" true)
      (c.readEntryBool "AnimeLab" "StickerShortcuts" true)
      (c.readEntryBool "AnimeLab" "LivePreview" true)
      (c.readEntryBool "AnimeLab" "StreamerMode" false)
      (wellFormed_setSoundPackText (c.readEntry "AnimeLab" "SoundPack" "Kawaii Ping")
        (wellFormed_setAnimationText (c.readEntry "AnimeLab" "Animation" "Subtle Gradient")
          (wellFormed_setProfileText (c.readEntry "AnimeLab" "Profile" "Sakura") h))))
    exact this
  refine ⟨fun c => hload c buildUi (by decide), hload, fun _ _ h => h, ?_, ?_⟩
  · intro p h
    exact wellFormed_markModified (wellFormed_updatePreview (wellFormed_checkBoxes
      "libera=Sakura" true true true true true false
      (wellFormed_setSoundPackText "Kawaii Ping"
        (wellFormed_setAnimationText "Subtle Gradient"
          (wellFormed_setProfileText "Sakura" h)))))
  · intro obj p h
    exact wellFormed_markModified (wellFormed_updatePreview (wellFormed_checkBoxes
      ((obj.value "networkThemeMap").toString "")
      ((obj.value "perNetworkThemes").toBool true)
      ((obj.value "bubbleMode").toBool true)
      ((obj.value "assistantSidebar").toBool true)
      ((obj.value "stickerShortcuts").toBool true)
      ((obj.value "livePreview").toBool true)
      ((obj.value "streamerMode").toBool false)
      (wellFormed_setSoundPackText ((obj.value "soundPack").toString "Kawaii Ping")
        (wellFormed_setAnimationText ((obj.value "animation").toString "Subtle Gradient")
          (wellFormed_setProfileText ((obj.value "profile").toString "Sakura") h)))))

/-! ## Export and import -/

theorem mem_profileItems {i : Nat} (h : i < 3) : itemText profileItems i ∈ profileItems :=
  (findText_eq_some (findText_profileItems h)).2

theorem mem_animationItems {i : Nat} (h : i < 3) : itemText animationItems i ∈ animationItems :=
  (findText_eq_some (findText_animationItems h)).2

theorem mem_soundPackItems {i : Nat} (h : i < 3) : itemText soundPackItems i ∈ soundPackItems :=
  (findText_eq_some (findText_soundPackItems h)).2

theorem value_exportObject (p : Panel) :
    (exportObject p).value "profile" = .string p.profile ∧
    (exportObject p).value "animation" = .string p.animation ∧
    (exportObject p).value "soundPack" = .string p.soundPack ∧
    (exportObject p).value "perNetworkThemes" = .bool p.perNetworkThemes ∧
    (exportObject p).value "bubbleMode" = .bool p.bubbleMode ∧
    (exportObject p).value "assistantSidebar" = .bool p.assistantSidebar ∧
    (exportObject p).value "stickerShortcuts" = .bool p.stickerShortcuts ∧
    (exportObject p).value "livePreview" = .bool p.livePreview ∧
    (exportObject p).value "streamerMode" = .bool p.streamerMode ∧
    (exportObject p).value "networkThemeMap" = .string p.networkThemeMap := by
  simp [exportObject, QJsonObject.insert, QJsonObject.remove, QJsonObject.value]

/-- C1: for every page state whose combo boxes show one of their three items, the
object `exportThemeJson` writes, when imported by `importThemeJson` into any page
state, makes all ten values equal to the exported ones. -/
theorem export_import_roundtrip (p q : Panel) (h h' : Host) (outName inName : String)
    (hp : p.WellFormed) (hout : outName ≠ "") (hin : inName ≠ "") :
    (exportThemeJson outName true p h).2.written = h.written ++ [(outName, exportObject p)] ∧
    (importThemeJson inName true (.object (exportObject p)) q h').1.fields = p.fields := by
  obtain ⟨h1, h2, h3⟩ := hp
  obtain ⟨v1, v2, v3, v4, v5, v6, v7, v8, v9, v10⟩ := value_exportObject p
  constructor
  · simp [exportThemeJson, isEmpty_eq_false_of_ne hout]
  · have e1 : p.profile ∈ profileItems := mem_profileItems h1
    have e2 : p.animation ∈ animationItems := mem_animationItems h2
    have e3 : p.soundPack ∈ soundPackItems := mem_soundPackItems h3
    simp only [importThemeJson, isEmpty_eq_false_of_ne hin, QJsonDocument.isObject,
      QJsonDocument.toObject, Bool.not_true, Bool.false_eq_true, if_false]
    rw [fields_applyObject, v1, v2, v3, v4, v5, v6, v7, v8, v9, v10]
    simp only [QJsonValue.toString, QJsonValue.toBool, e1, e2, e3, if_true]
    rfl

theorem export_import_roundtrip_witness :
    samplePanel.WellFormed ∧ "anime-theme.json" ≠ "" ∧
    (exportThemeJson "anime-theme.json" true samplePanel emptyHost).2.written
      = emptyHost.written ++ [("anime-theme.json", exportObject samplePanel)] ∧
    (importThemeJson "anime-theme.json" true (.object (exportObject samplePanel))
      buildUi emptyHost).1.fields = samplePanel.fields :=
  ⟨by decide, by decide,
    export_import_roundtrip samplePanel buildUi emptyHost emptyHost "anime-theme.json"
      "anime-theme.json" (by decide) (by decide) (by decide)⟩

/-! ## Save and load -/

theorem config_saveSettings (p : Panel) (h : Host) (k : String) :
    (saveSettings p h).2.config "AnimeLab" k = writeGroup p h.config "AnimeLab" k := by
  unfold saveSettings applyStreamerModeGuards installStickerShortcuts
  cases p.stickerShortcuts <;> cases p.streamerMode <;>
    simp [KConfig.writeEntry, KConfig.writeEntryBool]

theorem writeGroup_entries (p : Panel) (c : KConfig) :
    writeGroup p c "AnimeLab" "Profile" = some p.profile ∧
    writeGroup p c "AnimeLab" "Animation" = some p.animation ∧
    writeGroup p c "AnimeLab" "SoundPack" = some p.soundPack ∧
    writeGroup p c "AnimeLab" "PerNetworkThemes"
      = some (if p.perNetworkThemes then "true" else "false") ∧
    writeGroup p c "AnimeLab" "BubbleMode" = some (if p.bubbleMode then "true" else "false") ∧
    writeGroup p c "AnimeLab" "AssistantSidebar"
      = some (if p.assistantSidebar then "true" else "false") ∧
    writeGroup p c "AnimeLab" "StickerShortcuts"
      = some (if p.stickerShortcuts then "true" else "false") ∧
    writeGroup p c "AnimeLab" "LivePreview" = some (if p.livePreview then "true" else "false") ∧
    writeGroup p c "AnimeLab" "StreamerMode"
      = some (if p.streamerMode then "true" else "false") ∧
    writeGroup p c "AnimeLab" "NetworkThemeMap" = some p.networkThemeMap := by
  simp [writeGroup, KConfig.writeEntry, KConfig.writeEntryBool]

theorem readEntryBool_of_text (c : KConfig) (g k : String) (b d : Bool)
    (h : c g k = some (if b then "true" else "false")) : c.readEntryBool g k d = b := by
  cases b <;> simp [KConfig.readEntryBool, h] <;> decide

theorem readEntry_of_text (c : KConfig) (g k v d : String) (h : c g k = some v) :
    c.readEntry g k d = v := by
  simp [KConfig.readEntry, h]

/-- C2: for every page state whose combo boxes show one of their three items and every
prior store, `saveSettings` leaves the ten values under their keys of group `AnimeLab`
(flags as the texts `true` and `false`), and a `loadSettings` from that store, into any
page state, makes all ten values equal to the saved ones. -/
theorem save_load_roundtrip (p q : Panel) (h : Host) (hp : p.WellFormed) :
    (saveSettings p h).2.config "AnimeLab" "Profile" = some p.profile ∧
    (saveSettings p h).2.config "AnimeLab" "Animation" = some p.animation ∧
    (saveSettings p h).2.config "AnimeLab" "SoundPack" = some p.soundPack ∧
    (saveSettings p h).2.config "AnimeLab" "PerNetworkThemes"
      = some (if p.perNetworkThemes then "true" else "false") ∧
    (saveSettings p h).2.config "AnimeLab" "BubbleMode"
      = some (if p.bubbleMode then "true" else "false") ∧
    (saveSettings p h).2.config "AnimeLab" "AssistantSidebar"
      = some (if p.assistantSidebar then "true" else "false") ∧
    (saveSettings p h).2.config "AnimeLab" "StickerShortcuts"
      = some (if p.stickerShortcuts then "true" else "false") ∧
    (saveSettings p h).2.config "AnimeLab" "LivePreview"
      = some (if p.livePreview then "true" else "false") ∧
    (saveSettings p h).2.config "AnimeLab" "StreamerMode"
      = some (if p.streamerMode then "true" else "false") ∧
    (saveSettings p h).2.config "AnimeLab" "NetworkThemeMap" = some p.networkThemeMap ∧
    (saveSettings p h).1.fields = p.fields ∧
    (loadSettings (saveSettings p h).2.config (saveSettings p h).1).fields = p.fields ∧
    (loadSettings (saveSettings p h).2.config q).fields = p.fields := by
  obtain ⟨h1, h2, h3⟩ := hp
  obtain ⟨w1, w2, w3, w4, w5, w6, w7, w8, w9, w10⟩ := writeGroup_entries p h.config
  have e1 : p.profile ∈ profileItems := mem_profileItems h1
  have e2 : p.animation ∈ animationItems := mem_animationItems h2
  have e3 : p.soundPack ∈ soundPackItems := mem_soundPackItems h3
  have s1 := (config_saveSettings p h _).trans w1
  have s2 := (config_saveSettings p h _).trans w2
  have s3 := (config_saveSettings p h _).trans w3
  have s4 := (config_saveSettings p h _).trans w4
  have s5 := (config_saveSettings p h _).trans w5
  have s6 := (config_saveSettings p h _).trans w6
  have s7 := (config_saveSettings p h _).trans w7
  have s8 := (config_saveSettings p h _).trans w8
  have s9 := (config_saveSettings p h _).trans w9
  have s10 := (config_saveSettings p h _).trans w10
  have key : ∀ r : Panel, (loadSettings (saveSettings p h).2.config r).fields = p.fields := by
    intro r
    rw [fields_loadSettings]
    rw [readEntry_of_text _ _ _ _ _ s1, readEntry_of_text _ _ _ _ _ s2,
      readEntry_of_text _ _ _ _ _ s3, readEntryBool_of_text _ _ _ _ _ s4,
      readEntryBool_of_text _ _ _ _ _ s5, readEntryBool_of_text _ _ _ _ _ s6,
      readEntryBool_of_text _ _ _ _ _ s7, readEntryBool_of_text _ _ _ _ _ s8,
      readEntryBool_of_text _ _ _ _ _ s9, readEntry_of_text _ _ _ _ _ s10]
    simp only [e1, e2, e3, if_true]
    rfl
  exact ⟨s1, s2, s3, s4, s5, s6, s7, s8, s9, s10, rfl, key _, key q⟩

theorem save_load_roundtrip_witness :
    samplePanel.WellFormed ∧
    (loadSettings (saveSettings samplePanel emptyHost).2.config buildUi).fields
      = samplePanel.fields :=
  ⟨by decide, (save_load_roundtrip samplePanel buildUi emptyHost (by decide)).2.2.2.2.2.2.2.2.2.2.2.2⟩

/-! ## Sticker shortcuts -/

theorem appendMissing_eq (bs : List String) (hbs : bs.Nodup) (l : List String) :
    appendMissing bs l = l ++ bs.filter (fun b => decide (b ∉ l)) := by
  induction bs generalizing l with
  | nil => simp [appendMissing]
  | cons b bs ih =>
    have hb : b ∉ bs := (List.nodup_cons.1 hbs).1
    have hn : bs.Nodup := (List.nodup_cons.1 hbs).2
    have step : appendMissing (b :: bs) l
        = appendMissing bs (if !l.contains b then l ++ [b] else l) := rfl
    rw [step]
    by_cases hl : b ∈ l
    · simp [hl, ih hn]
    · have hc : bs.filter (fun x => decide (x ∉ l ++ [b])) = bs.filter (fun x => decide (x ∉ l)) := by
        apply List.filter_congr
        intro x hx
        have hxb : x ≠ b := fun e => hb (e ▸ hx)
        simp [hxb]
      have e : (if (!l.contains b) = true then l ++ [b] else l) = l ++ [b] := by simp [hl]
      rw [e, ih hn, hc, List.filter_cons]
      simp [hl]

theorem stickerButtons_nodup : stickerButtons.Nodup := by decide

theorem quickButtonList_installStickerShortcuts (h : Host) :
    (installStickerShortcuts h).quickButtonList
      = h.quickButtonList ++ stickerButtons.filter (fun b => decide (b ∉ h.quickButtonList)) :=
  appendMissing_eq stickerButtons stickerButtons_nodup h.quickButtonList

theorem mem_installStickerShortcuts (h : Host) (b : String) (hb : b ∈ stickerButtons) :
    b ∈ (installStickerShortcuts h).quickButtonList := by
  rw [quickButtonList_installStickerShortcuts]
  by_cases hl : b ∈ h.quickButtonList
  · exact List.mem_append_left _ hl
  · exact List.mem_append_right _ (List.mem_filter.2 ⟨hb, by simpa using hl⟩)

/-- C8: `installStickerShortcuts` keeps the quick-button list as a leading segment of
the result, the result contains each of the four sticker entries, what is appended is
exactly the sticker entries absent from the list, in their fixed order and each once
(so at most four), nothing else in the host changes, and a second run changes nothing. -/
theorem installStickerShortcuts_merge (h : Host) :
    h.quickButtonList <+: (installStickerShortcuts h).quickButtonList ∧
    (∀ b ∈ stickerButtons, b ∈ (installStickerShortcuts h).quickButtonList) ∧
    (∃ added : List String,
      (installStickerShortcuts h).quickButtonList = h.quickButtonList ++ added ∧
      added = stickerButtons.filter (fun b => decide (b ∉ h.quickButtonList)) ∧
      added.Sublist stickerButtons ∧ added.Nodup ∧
      (∀ b ∈ added, b ∈ stickerButtons ∧ b ∉ h.quickButtonList) ∧
      added.length ≤ 4) ∧
    (installStickerShortcuts h).quickButtonList.length ≤ h.quickButtonList.length + 4 ∧
    installStickerShortcuts h = { h with quickButtonList := (installStickerShortcuts h).quickButtonList } ∧
    installStickerShortcuts (installStickerShortcuts h) = installStickerShortcuts h := by
  have hq := quickButtonList_installStickerShortcuts h
  have hsub : (stickerButtons.filter (fun b => decide (b ∉ h.quickButtonList))).Sublist
      stickerButtons := List.filter_sublist _
  have hlen : (stickerButtons.filter (fun b => decide (b ∉ h.quickButtonList))).length ≤ 4 := by
    simpa [stickerButtons] using hsub.length_le
  refine ⟨?_, mem_installStickerShortcuts h, ?_, ?_, rfl, ?_⟩
  · rw [hq]
    exact List.prefix_append _ _
  · refine ⟨_, hq, rfl, hsub, hsub.nodup stickerButtons_nodup, ?_, hlen⟩
    intro b hb
    have := List.mem_filter.1 hb
    exact ⟨this.1, by simpa using this.2⟩
  · rw [hq, List.length_append]
    omega
  · have hall : ∀ b ∈ stickerButtons, b ∈ (installStickerShortcuts h).quickButtonList :=
      mem_installStickerShortcuts h
    have hnone : stickerButtons.filter
        (fun b => decide (b ∉ (installStickerShortcuts h).quickButtonList)) = [] := by
      rw [List.filter_eq_nil_iff]
      intro b hb
      simpa using hall b hb
    have h2 := quickButtonList_installStickerShortcuts (installStickerShortcuts h)
    rw [hnone, List.append_nil] at h2
    show ({ installStickerShortcuts h with
      quickButtonList :=
        appendMissing stickerButtons (installStickerShortcuts h).quickButtonList } : Host)
      = installStickerShortcuts h
    have h3 : appendMissing stickerButtons (installStickerShortcuts h).quickButtonList
        = (installStickerShortcuts h).quickButtonList := h2
    rw [h3]

theorem installStickerShortcuts_merge_witness :
    "Blush,/say (⁄ ⁄•⁄ω⁄•⁄ ⁄)" ∈ stickerButtons ∧
    "Blush,/say (⁄ ⁄•⁄ω⁄•⁄ ⁄)" ∈ (installStickerShortcuts sampleHost).quickButtonList ∧
    (installStickerShortcuts sampleHost).quickButtonList
      = [ "Cat,/say (=^･ω･^=)", "Op,/op %u", "Sakura,/say (✿◠‿◠)", "Sparkle,/say ✨"
        , "Blush,/say (⁄ ⁄•⁄ω⁄•⁄ ⁄)" ] :=
  ⟨by decide, (installStickerShortcuts_merge sampleHost).2.1 _ (by decide), by decide⟩

/-! ## Applying a profile -/

/-- C4, as the claim states it, fails: on a host without quick buttons, and a page with
sticker shortcuts checked, `applyProfileNow` leaves the quick-button list empty, so it
holds no sticker entry, while the icon theme is set and the refresh is emitted. -/
theorem applyProfileNow_leaves_quick_buttons :
    samplePanel.stickerShortcuts = true ∧
    (applyProfileNow samplePanel emptyHost).quickButtonList = [] ∧
    ¬ (∀ b ∈ stickerButtons, b ∈ (applyProfileNow samplePanel emptyHost).quickButtonList) ∧
    (applyProfileNow samplePanel emptyHost).iconTheme = "anime-sakura" ∧
    (applyProfileNow samplePanel emptyHost).appearanceChanged = 1 := by
  decide

/-- C4, amended: for every profile name, `applyAnimeProfile` (and so `applyProfileNow`
on the selected profile) sets `Themes/IconTheme` in the store and the icon theme of
`Preferences` to `anime-sakura`, initialises the nick icons and emits
`appearanceChanged` once, and leaves the quick-button list as it was; the sticker
entries are put into the quick-button list by `saveSettings` when sticker shortcuts
is checked. -/
theorem applyProfileNow_nudges (profileName : String) (p : Panel) (h : Host) :
    applyProfileNow p h = applyAnimeProfile p.profile h ∧
    (applyAnimeProfile profileName h).config "Themes" "IconTheme" = some "anime-sakura" ∧
    (applyAnimeProfile profileName h).iconTheme = "anime-sakura" ∧
    (applyAnimeProfile profileName h).nickIconInits = h.nickIconInits + 1 ∧
    (applyAnimeProfile profileName h).appearanceChanged = h.appearanceChanged + 1 ∧
    (applyAnimeProfile profileName h).quickButtonList = h.quickButtonList ∧
    (p.stickerShortcuts = true →
      ∀ b ∈ stickerButtons, b ∈ (saveSettings p h).2.quickButtonList) := by
  refine ⟨rfl, ?_, rfl, rfl, rfl, rfl, ?_⟩
  · simp [applyAnimeProfile, KConfig.writeEntry]
  · intro hs b hb
    have hq : (saveSettings p h).2.quickButtonList
        = (installStickerShortcuts { h with config := writeGroup p h.config }).quickButtonList := by
      unfold saveSettings applyStreamerModeGuards
      cases p.streamerMode <;> simp [hs]
    rw [hq]
    exact mem_installStickerShortcuts _ b hb

theorem applyProfileNow_nudges_witness :
    samplePanel.stickerShortcuts = true ∧
    (applyAnimeProfile "Ghibli Soft" emptyHost).quickButtonList = emptyHost.quickButtonList ∧
    "Sparkle,/say ✨" ∈ (saveSettings samplePanel emptyHost).2.quickButtonList :=
  ⟨by decide, (applyProfileNow_nudges "Ghibli Soft" samplePanel emptyHost).2.2.2.2.2.1,
    (applyProfileNow_nudges "Ghibli Soft" samplePanel emptyHost).2.2.2.2.2.2 (by decide)
      "Sparkle,/say ✨" (by decide)⟩

/-! ## Errors of import and export -/

theorem append_singleton_ne (l : List String) (x : String) : l ++ [x] ≠ l := by
  intro e
  have := congrArg List.length e
  simp at this

theorem importThemeJson_unchanged (fileName : String) (opened : Bool) (doc : QJsonDocument)
    (p : Panel) (h : Host) (hf : fileName = "" ∨ opened = false ∨ doc.isObject = false) :
    (importThemeJson fileName opened doc p h).1 = p := by
  unfold importThemeJson
  split
  · rfl
  · split
    · rfl
    · split
      · rfl
      · next h1 h2 h3 =>
        rcases hf with e | e | e
        · exact absurd ((String.isEmpty_iff fileName).2 e) h1
        · simp [e] at h2
        · simp [e] at h3

theorem exportThemeJson_unchanged (fileName : String) (opened : Bool) (p : Panel) (h : Host) :
    (exportThemeJson fileName opened p h).1 = p := by
  unfold exportThemeJson
  split
  · rfl
  · split <;> rfl

/-- C3, as the claim states it, fails: the file opens, its content is the JSON array
`[]`, and `importThemeJson` shows the error box `Invalid JSON format.` and leaves the
page as it was. -/
theorem import_rejects_non_object :
    "theme.json" ≠ "" ∧
    (importThemeJson "theme.json" true (.array []) samplePanel emptyHost).2.errorBoxes
      = ["Invalid JSON format."] ∧
    (importThemeJson "theme.json" true (.array []) samplePanel emptyHost).2.errorBoxes
      ≠ emptyHost.errorBoxes ∧
    (importThemeJson "theme.json" true (.array []) samplePanel emptyHost).1 = samplePanel := by
  decide

/-- C3, amended: for every non-empty file name, `exportThemeJson` shows an error box
exactly when the file does not open, and `importThemeJson` shows one exactly when the
file does not open or the parsed document is not a JSON object, and then leaves the
page unchanged; when the file opens and the document is an object, import shows no
error and sets the ten values from the object (a combo box moves only to a text that
is one of its items).  The export never changes the page. -/
theorem import_export_errors (fileName : String) (opened : Bool) (doc : QJsonDocument)
    (p : Panel) (h : Host) (hn : fileName ≠ "") :
    ((exportThemeJson fileName opened p h).2.errorBoxes ≠ h.errorBoxes ↔ opened = false) ∧
    ((importThemeJson fileName opened doc p h).2.errorBoxes ≠ h.errorBoxes
      ↔ (opened = false ∨ doc.isObject = false)) ∧
    (opened = false →
      (exportThemeJson fileName opened p h).2.errorBoxes
        = h.errorBoxes ++ ["Failed to write file: " ++ fileName] ∧
      (importThemeJson fileName opened doc p h).2.errorBoxes
        = h.errorBoxes ++ ["Failed to read file: " ++ fileName]) ∧
    (opened = true → doc.isObject = false →
      (importThemeJson fileName opened doc p h).2.errorBoxes
        = h.errorBoxes ++ ["Invalid JSON format."]) ∧
    (opened = false ∨ doc.isObject = false →
      (importThemeJson fileName opened doc p h).1 = p) ∧
    (exportThemeJson fileName opened p h).1 = p ∧
    (∀ obj : QJsonObject, opened = true → doc = .object obj →
      (importThemeJson fileName opened doc p h).2 = h ∧
      (importThemeJson fileName opened doc p h).1 = applyObject obj p ∧
      (importThemeJson fileName opened doc p h).1.fields =
        { profile :=
            if (obj.value "profile").toString "Sakura" ∈ profileItems
            then (obj.value "profile").toString "Sakura" else p.profile
          animation :=
            if (obj.value "animation").toString "Subtle Gradient" ∈ animationItems
            then (obj.value "animation").toString "Subtle Gradient" else p.animation
          soundPack :=
            if (obj.value "soundPack").toString "Kawaii Ping" ∈ soundPackItems
            then (obj.value "soundPack").toString "Kawaii Ping" else p.soundPack
          perNetworkThemes := (obj.value "perNetworkThemes").toBool true
          bubbleMode := (obj.value "bubbleMode").toBool true
          assistantSidebar := (obj.value "assistantSidebar").toBool true
          stickerShortcuts := (obj.value "stickerShortcuts").toBool true
          livePreview := (obj.value "livePreview").toBool true
          streamerMode := (obj.value "streamerMode").toBool false
          networkThemeMap := (obj.value "networkThemeMap").toString "" }) := by
  have he := isEmpty_eq_false_of_ne hn
  refine ⟨?_, ?_, ?_, ?_, ?_, exportThemeJson_unchanged fileName opened p h, ?_⟩
  · cases opened <;> simp [exportThemeJson, he, append_singleton_ne]
  · cases opened
    · simp [importThemeJson, he, append_singleton_ne]
    · cases hd : doc.isObject <;> simp [importThemeJson, he, hd, append_singleton_ne]
  · intro ho
    subst ho
    simp [exportThemeJson, importThemeJson, he, i18n]
  · intro ho hd
    subst ho
    simp [importThemeJson, he, hd, i18n]
  · intro hf
    exact importThemeJson_unchanged fileName opened doc p h
      (hf.elim (fun e => Or.inr (Or.inl e)) (fun e => Or.inr (Or.inr e)))
  · intro obj ho hd
    subst ho hd
    have e : importThemeJson fileName true (.object obj) p h = (applyObject obj p, h) := by
      simp [importThemeJson, he, QJsonDocument.isObject, QJsonDocument.toObject]
    rw [e]
    exact ⟨rfl, rfl, fields_applyObject obj p⟩

theorem import_export_errors_witness :
    "theme.json" ≠ "" ∧
    (importThemeJson "theme.json" true (.object [("bubbleMode", .bool false)])
      samplePanel emptyHost).1.fields.bubbleMode = false ∧
    (importThemeJson "theme.json" false .null samplePanel emptyHost).1 = samplePanel ∧
    (importThemeJson "theme.json" false .null samplePanel emptyHost).2.errorBoxes
      = emptyHost.errorBoxes ++ ["Failed to read file: " ++ "theme.json"] ∧
    (importThemeJson "theme.json" true (.array []) samplePanel emptyHost).1 = samplePanel ∧
    (importThemeJson "theme.json" true (.array []) samplePanel emptyHost).2.errorBoxes
      = emptyHost.errorBoxes ++ ["Invalid JSON format."] :=
  ⟨by decide, by
    have h := ((import_export_errors "theme.json" true
      (.object [("bubbleMode", .bool false)]) samplePanel emptyHost (by decide)).2.2.2.2.2.2
      [("bubbleMode", .bool false)] rfl rfl).2.2
    rw [h]
    rfl,
    (import_export_errors "theme.json" false .null samplePanel emptyHost
      (by decide)).2.2.2.2.1 (Or.inl rfl),
    ((import_export_errors "theme.json" false .null samplePanel emptyHost
      (by decide)).2.2.1 rfl).2,
    (import_export_errors "theme.json" true (.array []) samplePanel emptyHost
      (by decide)).2.2.2.2.1 (Or.inr rfl),
    (import_export_errors "theme.json" true (.array []) samplePanel emptyHost
      (by decide)).2.2.2.1 rfl rfl⟩

/-! ## The palette written by `applyAnimeProfile` -/

/-- C6: for every profile name, `applyAnimeProfile` leaves in the eleven colour keys the
Neon Night palette for the name `Neon Night`, the Ghibli Soft palette for the name
`Ghibli Soft` and the Sakura palette for any other name; `Action` equals
`ActionMessage`; the three `Appearance` flags are stored as `true`; and every key of
group `AnimeLab` keeps its value. -/
theorem applyAnimeProfile_palette (profileName : String) (h : Host) :
    messageTextColours (applyAnimeProfile profileName h).config
      = (if profileName = "Neon Night" then neonNightColours
         else if profileName = "Ghibli Soft" then ghibliSoftColours
         else sakuraColours) ∧
    (applyAnimeProfile profileName h).config "Message Text Colors" "Action"
      = (applyAnimeProfile profileName h).config "Message Text Colors" "ActionMessage" ∧
    (applyAnimeProfile profileName h).config "Appearance" "InputFieldsBackgroundColor"
      = some "true" ∧
    (applyAnimeProfile profileName h).config "Appearance" "UseColoredNicks" = some "true" ∧
    (applyAnimeProfile profileName h).config "Appearance" "AllowColorCodes" = some "true" ∧
    (∀ d : Bool,
      (applyAnimeProfile profileName h).config.readEntryBool "Appearance"
        "InputFieldsBackgroundColor" d = true ∧
      (applyAnimeProfile profileName h).config.readEntryBool "Appearance"
        "UseColoredNicks" d = true ∧
      (applyAnimeProfile profileName h).config.readEntryBool "Appearance"
        "AllowColorCodes" d = true) ∧
    (∀ key : String,
      (applyAnimeProfile profileName h).config "AnimeLab" key = h.config "AnimeLab" key) := by
  have f1 : (applyAnimeProfile profileName h).config "Appearance" "InputFieldsBackgroundColor"
      = some (if true then "true" else "false") := by
    simp [applyAnimeProfile, KConfig.writeEntry, KConfig.writeEntryBool]
  have f2 : (applyAnimeProfile profileName h).config "Appearance" "UseColoredNicks"
      = some (if true then "true" else "false") := by
    simp [applyAnimeProfile, KConfig.writeEntry, KConfig.writeEntryBool]
  have f3 : (applyAnimeProfile profileName h).config "Appearance" "AllowColorCodes"
      = some (if true then "true" else "false") := by
    simp [applyAnimeProfile, KConfig.writeEntry, KConfig.writeEntryBool]
  refine ⟨?_, ?_, f1, f2, f3, ?_, ?_⟩
  · by_cases h1 : profileName = "Neon Night"
    · subst h1
      simp [messageTextColours, colourKeys, neonNightColours, applyAnimeProfile, profilePalette,
        KConfig.writeEntry, KConfig.writeEntryBool]
    · by_cases h2 : profileName = "Ghibli Soft"
      · subst h2
        simp [messageTextColours, colourKeys, ghibliSoftColours, applyAnimeProfile,
          profilePalette, KConfig.writeEntry, KConfig.writeEntryBool]
      · simp [messageTextColours, colourKeys, sakuraColours, applyAnimeProfile, profilePalette,
          KConfig.writeEntry, KConfig.writeEntryBool, h1, h2]
  · simp [applyAnimeProfile, KConfig.writeEntry, KConfig.writeEntryBool]
  · intro d
    exact ⟨readEntryBool_of_text _ _ _ _ _ f1, readEntryBool_of_text _ _ _ _ _ f2,
      readEntryBool_of_text _ _ _ _ _ f3⟩
  · intro key
    simp [applyAnimeProfile, KConfig.writeEntry, KConfig.writeEntryBool]

/-! ## The preview against the applied palette -/

/-- Where the preview and the applied palette agree: with live preview enabled the
preview HTML is the template filled with the three colours of `previewPalette`; for
each of the three profiles the background is the `TextViewBackground` that
`applyAnimeProfile` writes, for Sakura and Ghibli Soft the text colour is the
`ChannelMessage`, and for Sakura and Neon Night the accent is the `ActionMessage`. -/
theorem preview_agrees_elsewhere (p : Panel) (h : Host)
    (hw : p.profileIndex < 3) (hl : p.livePreview = true) :
    (updatePreview p).preview
      = previewHtml (previewPalette p.profile).1 (previewPalette p.profile).2.1
          (previewPalette p.profile).2.2 p.animation
          (if p.bubbleMode then "On" else "Off") p.soundPack ∧
    (applyAnimeProfile p.profile h).config "Message Text Colors" "TextViewBackground"
      = some (previewPalette p.profile).1 ∧
    (p.profile ≠ "Neon Night" →
      (applyAnimeProfile p.profile h).config "Message Text Colors" "ChannelMessage"
        = some (previewPalette p.profile).2.1) ∧
    (p.profile ≠ "Ghibli Soft" →
      (applyAnimeProfile p.profile h).config "Message Text Colors" "ActionMessage"
        = some (previewPalette p.profile).2.2) := by
  refine ⟨?_, ?_⟩
  · simp [updatePreview, hl]
  · have hp : p.profile = "Sakura" ∨ p.profile = "Neon Night" ∨ p.profile = "Ghibli Soft" := by
      unfold Panel.profile
      interval_cases p.profileIndex <;> decide
    rcases hp with e | e | e <;> rw [e] <;>
      simp [applyAnimeProfile, profilePalette, previewPalette, KConfig.writeEntry,
        KConfig.writeEntryBool]

/-- C7: after `saveSettings` with streamer mode checked the store holds
`General Options/ShowRealNames`, `Flags/Log` and `Flags/AddHostnameToLog` as `false` and
`Appearance/Timestamping` as `true`, whatever it held before; after `saveSettings` with
streamer mode unchecked every key outside group `AnimeLab` holds what it held before. -/
theorem saveSettings_streamer_guards (p : Panel) (h : Host) :
    (p.streamerMode = true →
      (saveSettings p h).2.config "General Options" "ShowRealNames" = some "false" ∧
      (saveSettings p h).2.config "Flags" "Log" = some "false" ∧
      (saveSettings p h).2.config "Flags" "AddHostnameToLog" = some "false" ∧
      (saveSettings p h).2.config "Appearance" "Timestamping" = some "true" ∧
      ∀ d : Bool,
        (saveSettings p h).2.config.readEntryBool "General Options" "ShowRealNames" d = false ∧
        (saveSettings p h).2.config.readEntryBool "Flags" "Log" d = false ∧
        (saveSettings p h).2.config.readEntryBool "Flags" "AddHostnameToLog" d = false ∧
        (saveSettings p h).2.config.readEntryBool "Appearance" "Timestamping" d = true) ∧
    (p.streamerMode = false →
      ∀ group key : String, group ≠ "AnimeLab" →
        (saveSettings p h).2.config group key = h.config group key) := by
  constructor
  · intro hs
    have g1 : (saveSettings p h).2.config "General Options" "ShowRealNames"
        = some (if false then "true" else "false") := by
      unfold saveSettings applyStreamerModeGuards installStickerShortcuts
      cases p.stickerShortcuts <;> simp [hs, KConfig.writeEntry, KConfig.writeEntryBool]
    have g2 : (saveSettings p h).2.config "Flags" "Log"
        = some (if false then "true" else "false") := by
      unfold saveSettings applyStreamerModeGuards installStickerShortcuts
      cases p.stickerShortcuts <;> simp [hs, KConfig.writeEntry, KConfig.writeEntryBool]
    have g3 : (saveSettings p h).2.config "Flags" "AddHostnameToLog"
        = some (if false then "true" else "false") := by
      unfold saveSettings applyStreamerModeGuards installStickerShortcuts
      cases p.stickerShortcuts <;> simp [hs, KConfig.writeEntry, KConfig.writeEntryBool]
    have g4 : (saveSettings p h).2.config "Appearance" "Timestamping"
        = some (if true then "true" else "false") := by
      unfold saveSettings applyStreamerModeGuards installStickerShortcuts
      cases p.stickerShortcuts <;> simp [hs, KConfig.writeEntry, KConfig.writeEntryBool]
    refine ⟨g1, g2, g3, g4, fun d => ?_⟩
    exact ⟨readEntryBool_of_text _ _ _ _ _ g1, readEntryBool_of_text _ _ _ _ _ g2,
      readEntryBool_of_text _ _ _ _ _ g3, readEntryBool_of_text _ _ _ _ _ g4⟩
  · intro hs group key hg
    unfold saveSettings applyStreamerModeGuards installStickerShortcuts
    cases p.stickerShortcuts <;>
      simp [hs, hg, writeGroup, KConfig.writeEntry, KConfig.writeEntryBool]

theorem saveSettings_streamer_guards_witness :
    samplePanel.streamerMode = true ∧
    (saveSettings samplePanel emptyHost).2.config "Flags" "Log" = some "false" ∧
    buildUi.streamerMode = false ∧ "Flags" ≠ "AnimeLab" ∧
    (saveSettings buildUi emptyHost).2.config "Flags" "Log" = emptyHost.config "Flags" "Log" :=
  ⟨by decide, ((saveSettings_streamer_guards samplePanel emptyHost).1 (by decide)).2.1,
    by decide, by decide,
    (saveSettings_streamer_guards buildUi emptyHost).2 (by decide) "Flags" "Log" (by decide)⟩

/-! ## The modification flag -/

theorem hasChanged_userEdit :
    (∀ (i : Nat) (p : Panel), i ≠ p.profileIndex →
      hasChanged (userEdit (.profile i) p) = true) ∧
    (∀ (i : Nat) (p : Panel), i ≠ p.animationIndex →
      hasChanged (userEdit (.animation i) p) = true) ∧
    (∀ (i : Nat) (p : Panel), i ≠ p.soundPackIndex →
      hasChanged (userEdit (.soundPack i) p) = true) ∧
    (∀ (b : Bool) (p : Panel), b ≠ p.perNetworkThemes →
      hasChanged (userEdit (.perNetworkThemes b) p) = true) ∧
    (∀ (b : Bool) (p : Panel), b ≠ p.bubbleMode →
      hasChanged (userEdit (.bubbleMode b) p) = true) ∧
    (∀ (b : Bool) (p : Panel), b ≠ p.assistantSidebar →
      hasChanged (userEdit (.assistantSidebar b) p) = true) ∧
    (∀ (b : Bool) (p : Panel), b ≠ p.stickerShortcuts →
      hasChanged (userEdit (.stickerShortcuts b) p) = true) ∧
    (∀ (b : Bool) (p : Panel), b ≠ p.livePreview →
      hasChanged (userEdit (.livePreview b) p) = true) ∧
    (∀ (b : Bool) (p : Panel), b ≠ p.streamerMode →
      hasChanged (userEdit (.streamerMode b) p) = true) ∧
    (∀ (t : String) (p : Panel), hasChanged (userEdit (.networkThemeMap t) p) = true) := by
  refine ⟨?_, ?_, ?_, ?_, ?_, ?_, ?_, ?_, ?_, ?_⟩
  · intro i p hne
    simp [userEdit, setProfileIndex, hne, hasChanged]
  · intro i p hne
    simp [userEdit, setAnimationIndex, hne, hasChanged]
  · intro i p hne
    simp [userEdit, setSoundPackIndex, hne, hasChanged]
  · intro b p hne
    simp [userEdit, setPerNetworkThemes, hne, hasChanged]
  · intro b p hne
    simp [userEdit, setBubbleMode, hne, hasChanged]
  · intro b p hne
    simp [userEdit, setAssistantSidebar, hne, hasChanged]
  · intro b p hne
    simp [userEdit, setStickerShortcuts, hne, hasChanged]
  · intro b p hne
    simp [userEdit, setLivePreview, hne, hasChanged]
  · intro b p hne
    simp [userEdit, setStreamerMode, hne, hasChanged]
  · intro t p
    simp [userEdit, setNetworkThemeMap, hasChanged]

theorem fields_setProfileIndex (i : Nat) (p : Panel) :
    (setProfileIndex i p).fields = { p.fields with profile := itemText profileItems i } := by
  unfold setProfileIndex
  split
  · next he => simp [Panel.fields, Panel.profile, ← he]
  · rw [fields_updatePreview, fields_markModified]
    rfl

theorem fields_setAnimationIndex (i : Nat) (p : Panel) :
    (setAnimationIndex i p).fields
      = { p.fields with animation := itemText animationItems i } := by
  unfold setAnimationIndex
  split
  · next he => simp [Panel.fields, Panel.animation, ← he]
  · rfl

theorem fields_setSoundPackIndex (i : Nat) (p : Panel) :
    (setSoundPackIndex i p).fields
      = { p.fields with soundPack := itemText soundPackItems i } := by
  unfold setSoundPackIndex
  split
  · next he => simp [Panel.fields, Panel.soundPack, ← he]
  · rfl

/-- C9: `hasChanged` is false after construction, after every `loadSettings` and after
every `saveSettings`, although loading emits `modified()` on the way (seven times when
constructing over an empty store); it is true after `restorePageToDefaults`, after
an import that reaches a JSON object, and after every user edit: picking another item
in a combo box, flipping a check box, or replacing the text of the mapping editor,
each of which also puts the edited value into its field; an import that is cancelled,
cannot open the file or finds no JSON object, and every export, leave the whole page,
`hasChanged` and the ten values included, as it was. -/
theorem hasChanged_tracks_modification :
    (∀ c : KConfig, hasChanged (construct c) = false) ∧
    (∀ (c : KConfig) (p : Panel), hasChanged (loadSettings c p) = false) ∧
    (∀ (p : Panel) (h : Host), hasChanged (saveSettings p h).1 = false) ∧
    ((construct emptyConfig).modifiedEmitted = 7 ∧ hasChanged (construct emptyConfig) = false) ∧
    (∀ p : Panel, hasChanged (restorePageToDefaults p) = true) ∧
    (∀ (fileName : String) (obj : QJsonObject) (p : Panel) (h : Host), fileName ≠ "" →
      hasChanged (importThemeJson fileName true (.object obj) p h).1 = true) ∧
    (∀ (i : Nat) (p : Panel), i ≠ p.profileIndex →
      hasChanged (userEdit (.profile i) p) = true) ∧
    (∀ (i : Nat) (p : Panel), i ≠ p.animationIndex →
      hasChanged (userEdit (.animation i) p) = true) ∧
    (∀ (i : Nat) (p : Panel), i ≠ p.soundPackIndex →
      hasChanged (userEdit (.soundPack i) p) = true) ∧
    (∀ (b : Bool) (p : Panel), b ≠ p.perNetworkThemes →
      hasChanged (userEdit (.perNetworkThemes b) p) = true) ∧
    (∀ (b : Bool) (p : Panel), b ≠ p.bubbleMode →
      hasChanged (userEdit (.bubbleMode b) p) = true) ∧
    (∀ (b : Bool) (p : Panel), b ≠ p.assistantSidebar →
      hasChanged (userEdit (.assistantSidebar b) p) = true) ∧
    (∀ (b : Bool) (p : Panel), b ≠ p.stickerShortcuts →
      hasChanged (userEdit (.stickerShortcuts b) p) = true) ∧
    (∀ (b : Bool) (p : Panel), b ≠ p.livePreview →
      hasChanged (userEdit (.livePreview b) p) = true) ∧
    (∀ (b : Bool) (p : Panel), b ≠ p.streamerMode →
      hasChanged (userEdit (.streamerMode b) p) = true) ∧
    (∀ (t : String) (p : Panel), hasChanged (userEdit (.networkThemeMap t) p) = true) ∧
    (∀ (i : Nat) (b : Bool) (t : String) (p : Panel),
      (userEdit (.profile i) p).fields = { p.fields with profile := itemText profileItems i } ∧
      (userEdit (.animation i) p).fields
        = { p.fields with animation := itemText animationItems i } ∧
      (userEdit (.soundPack i) p).fields
        = { p.fields with soundPack := itemText soundPackItems i } ∧
      (userEdit (.perNetworkThemes b) p).fields = { p.fields with perNetworkThemes := b } ∧
      (userEdit (.bubbleMode b) p).fields = { p.fields with bubbleMode := b } ∧
      (userEdit (.assistantSidebar b) p).fields = { p.fields with assistantSidebar := b } ∧
      (userEdit (.stickerShortcuts b) p).fields = { p.fields with stickerShortcuts := b } ∧
      (userEdit (.livePreview b) p).fields = { p.fields with livePreview := b } ∧
      (userEdit (.streamerMode b) p).fields = { p.fields with streamerMode := b } ∧
      (userEdit (.networkThemeMap t) p).fields = { p.fields with networkThemeMap := t }) ∧
    (∀ (fileName : String) (opened : Bool) (doc : QJsonDocument) (p : Panel) (h : Host),
      fileName = "" ∨ opened = false ∨ doc.isObject = false →
      (importThemeJson fileName opened doc p h).1 = p ∧
      hasChanged (importThemeJson fileName opened doc p h).1 = hasChanged p ∧
      (importThemeJson fileName opened doc p h).1.fields = p.fields) ∧
    (∀ (fileName : String) (opened : Bool) (p : Panel) (h : Host),
      (exportThemeJson fileName opened p h).1 = p ∧
      hasChanged (exportThemeJson fileName opened p h).1 = hasChanged p ∧
      (exportThemeJson fileName opened p h).1.fields = p.fields) := by
  obtain ⟨e1, e2, e3, e4, e5, e6, e7, e8, e9, e10⟩ := hasChanged_userEdit
  refine ⟨fun _ => rfl, fun _ _ => rfl, fun _ _ => rfl, ⟨by decide, rfl⟩, fun _ => rfl, ?_,
    e1, e2, e3, e4, e5, e6, e7, e8, e9, e10, ?_, ?_, ?_⟩
  · intro fileName obj p h hn
    simp [importThemeJson, isEmpty_eq_false_of_ne hn, QJsonDocument.isObject,
      QJsonDocument.toObject, applyObject, hasChanged]
  · intro i b t p
    exact ⟨fields_setProfileIndex i p, fields_setAnimationIndex i p,
      fields_setSoundPackIndex i p, fields_setPerNetworkThemes b p, fields_setBubbleMode b p,
      fields_setAssistantSidebar b p, fields_setStickerShortcuts b p,
      fields_setLivePreview b p, fields_setStreamerMode b p, fields_setNetworkThemeMap t p⟩
  · intro fileName opened doc p h hf
    rw [importThemeJson_unchanged fileName opened doc p h hf]
    exact ⟨rfl, rfl, rfl⟩
  · intro fileName opened p h
    rw [exportThemeJson_unchanged fileName opened p h]
    exact ⟨rfl, rfl, rfl⟩

theorem hasChanged_tracks_modification_witness :
    "theme.json" ≠ "" ∧
    hasChanged (importThemeJson "theme.json" true (.object []) buildUi emptyHost).1 = true ∧
    2 ≠ buildUi.profileIndex ∧
    hasChanged (userEdit (.profile 2) buildUi) = true ∧
    true ≠ buildUi.bubbleMode ∧
    hasChanged (userEdit (.bubbleMode true) buildUi) = true ∧
    (userEdit (.bubbleMode true) buildUi).fields.bubbleMode = true ∧
    (importThemeJson "theme.json" false .null samplePanel emptyHost).1 = samplePanel :=
  ⟨by decide,
    hasChanged_tracks_modification.2.2.2.2.2.1 "theme.json" [] buildUi emptyHost (by decide),
    by decide,
    hasChanged_tracks_modification.2.2.2.2.2.2.1 2 buildUi (by decide),
    by decide,
    hasChanged_tracks_modification.2.2.2.2.2.2.2.2.2.2.1 true buildUi (by decide),
    by decide,
    (hasChanged_tracks_modification.2.2.2.2.2.2.2.2.2.2.2.2.2.2.2.2.2.1 "theme.json" false
      .null samplePanel emptyHost (Or.inr (Or.inl rfl))).1⟩

/-! ## Defaults -/

/-- C10 at its failing input: importing the empty object `{}` sets the mapping text to
the empty text, while `restorePageToDefaults` and `loadSettings` over an empty store set
it to `libera=Sakura`; the other nine values agree between the three. -/
theorem import_empty_object_defaults (p : Panel) (h : Host) :
    (importThemeJson "theme.json" true (.object []) p h).1.fields.networkThemeMap = "" ∧
    (restorePageToDefaults p).fields.networkThemeMap = "libera=Sakura" ∧
    (loadSettings emptyConfig p).fields.networkThemeMap = "libera=Sakura" ∧
    (importThemeJson "theme.json" true (.object []) p h).1.fields
      ≠ (restorePageToDefaults p).fields ∧
    (importThemeJson "theme.json" true (.object []) p h).1.fields
      = { (restorePageToDefaults p).fields with networkThemeMap := "" } ∧
    (loadSettings emptyConfig p).fields = (restorePageToDefaults p).fields := by
  have he : importThemeJson "theme.json" true (.object []) p h = (applyObject [] p, h) := by
    simp [importThemeJson, isEmpty_eq_false_of_ne (show "theme.json" ≠ "" by decide),
      QJsonDocument.isObject, QJsonDocument.toObject]
  have h1 : "Sakura" ∈ profileItems := by decide
  have h2 : "Subtle Gradient" ∈ animationItems := by decide
  have h3 : "Kawaii Ping" ∈ soundPackItems := by decide
  have hi : (applyObject [] p).fields =
      { profile := "Sakura", animation := "Subtle Gradient", soundPack := "Kawaii Ping"
        perNetworkThemes := true, bubbleMode := true, assistantSidebar := true
        stickerShortcuts := true, livePreview := true, streamerMode := false
        networkThemeMap := "" } := by
    rw [fields_applyObject]
    simp [QJsonObject.value, QJsonValue.toString, QJsonValue.toBool, h1, h2, h3]
  have hl : (loadSettings emptyConfig p).fields =
      { profile := "Sakura", animation := "Subtle Gradient", soundPack := "Kawaii Ping"
        perNetworkThemes := true, bubbleMode := true, assistantSidebar := true
        stickerShortcuts := true, livePreview := true, streamerMode := false
        networkThemeMap := "libera=Sakura" } := by
    rw [fields_loadSettings]
    simp [KConfig.readEntry, KConfig.readEntryBool, emptyConfig, h1, h2, h3]
  rw [he, hi, hl, fields_restorePageToDefaults]
  simp

end AnimeLab_Config
